import Mathlib

/-!
Verification of the wakeup-alarm core in
`custom_components/personal_wakeup/alarm.py`: the scheduler
(`_reschedule`), the run coordinator (`_start_alarm` / `_run_alarm`),
the light and music fade sequencers (`_fade_light` / `_fade_music`) and
the configuration-update command (`async_set_config`).

Modelling conventions: local instants are natural numbers of
microseconds on the local wall clock (datetime arithmetic on aware
datetimes is plain wall-clock arithmetic, so a fixed-offset model is
faithful); Python float arithmetic on durations and volumes is modelled
exactly over `ℚ`; `int()` applied to a non-negative float quotient
truncates, which is natural-number division here.
-/

namespace PersonalWakeup

/-- Microseconds in one day (`timedelta(days=1)`). -/
def usPerDay : ℕ := 86400000000

/-- `time(hour=hh, minute=mm)` as microseconds since local midnight. -/
def timeOfDayUs (hh mm : ℕ) : ℕ := (hh * 60 + mm) * 60 * 1000000

/-- `datetime.combine(local_now.date(), self._config.time_of_day, tzinfo=...)`:
today's occurrence of the configured time of day (alarm.py line 259). -/
def todayFire (now tod : ℕ) : ℕ := now / usPerDay * usPerDay + tod

/-- `if today_fire <= local_now: today_fire += timedelta(days=1)`
(alarm.py lines 265-266). -/
def nextFireAt (now tod : ℕ) : ℕ :=
  if todayFire now tod ≤ now then todayFire now tod + usPerDay else todayFire now tod

/-- The `WakeupConfig` dataclass (alarm.py lines 22-29).
`time_of_day` is a `datetime.time` with hour/minute only, modelled as a
pair; `fade_duration` and `fade_music_duration` are Python ints,
modelled as `ℤ`; `volume` is a float, modelled exactly as `ℚ`. -/
structure WakeupConfig where
  time_of_day : ℕ × ℕ
  enabled : Bool
  fade_duration : ℤ
  volume : ℚ
  playlist : String
  fade_music_duration : ℤ := 300

/-- The mutable entity state of `WakeupAlarmEntity` that the claims
touch: the config, the presence options, the published state string,
the stored next fire instant, the timer cancel handle
(`self._unsubscribe`, `some t` = a callback is registered for instant
`t`), and the run/cancel flags. -/
structure AlarmState where
  config : WakeupConfig
  require_home : Bool
  person_entity : Option String
  next_fire : Option ℕ
  state : String
  unsubscribe : Option ℕ
  running : Bool
  cancel_requested : Bool

/-- The configured time of day of a config, in microseconds. -/
def todUs (c : WakeupConfig) : ℕ := timeOfDayUs c.time_of_day.1 c.time_of_day.2

/-- `WakeupAlarmEntity._reschedule` (alarm.py lines 231-287): cancel the
previous listener if any, then either disarm (enabled false) or compute
the next fire instant, store it and register the one-shot callback. -/
def reschedule (now : ℕ) (s : AlarmState) : AlarmState :=
  let s1 : AlarmState := { s with unsubscribe := none }
  if s1.config.enabled = false then
    { s1 with next_fire := none, state := "disarmed" }
  else
    let fire := nextFireAt now (todUs s1.config)
    { s1 with next_fire := some fire, state := "armed", unsubscribe := some fire }

theorem usPerDay_pos : 0 < usPerDay := by norm_num [usPerDay]

theorem todUs_lt_day (c : WakeupConfig) (hh : c.time_of_day.1 ≤ 23)
    (hm : c.time_of_day.2 ≤ 59) : todUs c < usPerDay := by
  simp only [todUs, timeOfDayUs, usPerDay]
  omega

theorem now_lt_todayFire_add_day (now tod : ℕ) :
    now < todayFire now tod + usPerDay := by
  simp only [todayFire, usPerDay]
  omega

/-- Claim C1: for every configured time_of_day and current local instant,
`reschedule()` with enabled=true stores a next fire instant strictly
greater than now; if today's occurrence of the time of day is ≤ now
(including exact equality) the fire instant is that occurrence advanced
by exactly one day, otherwise it is today's occurrence itself. -/
theorem reschedule_rollover (now : ℕ) (s : AlarmState)
    (hen : s.config.enabled = true) :
    (reschedule now s).next_fire = some (nextFireAt now (todUs s.config)) ∧
    now < nextFireAt now (todUs s.config) ∧
    (todayFire now (todUs s.config) ≤ now →
      nextFireAt now (todUs s.config) = todayFire now (todUs s.config) + usPerDay) ∧
    (now < todayFire now (todUs s.config) →
      nextFireAt now (todUs s.config) = todayFire now (todUs s.config)) := by
  refine ⟨by simp [reschedule, hen], ?_, ?_, ?_⟩
  · by_cases hc : todayFire now (todUs s.config) ≤ now
    · simpa [nextFireAt, hc] using now_lt_todayFire_add_day now (todUs s.config)
    · simp only [nextFireAt, hc, if_false]
      omega
  · intro hc
    simp [nextFireAt, hc]
  · intro hc
    simp [nextFireAt, Nat.not_le.mpr hc]

/-- A concrete alarm state used to instantiate hypothesis-bearing
theorems: the constructor defaults (alarm.py lines 104-123) with an
empty playlist placeholder. -/
def exampleState : AlarmState :=
  { config := { time_of_day := (7, 0), enabled := true, fade_duration := 900,
                volume := 1/4, playlist := "pl" }
    require_home := false
    person_entity := none
    next_fire := none
    state := "disarmed"
    unsubscribe := none
    running := false
    cancel_requested := false }

theorem reschedule_rollover_witness :
    (reschedule 30000000000 exampleState).next_fire
        = some (nextFireAt 30000000000 (todUs exampleState.config)) ∧
    30000000000 < nextFireAt 30000000000 (todUs exampleState.config) ∧
    (todayFire 30000000000 (todUs exampleState.config) ≤ 30000000000 →
      nextFireAt 30000000000 (todUs exampleState.config)
        = todayFire 30000000000 (todUs exampleState.config) + usPerDay) ∧
    (30000000000 < todayFire 30000000000 (todUs exampleState.config) →
      nextFireAt 30000000000 (todUs exampleState.config)
        = todayFire 30000000000 (todUs exampleState.config)) :=
  reschedule_rollover 30000000000 exampleState rfl

/-- Claim C4: after `reschedule()`, if enabled=false the state is
"disarmed" with the stored fire instant cleared and no timer callback
registered; if enabled=true the state is "armed" with exactly one
active scheduled fire; and the previous cancel handle is discarded
first, so the result never depends on it (tolerating none existing). -/
theorem reschedule_invariant (now : ℕ) (s : AlarmState) :
    (s.config.enabled = false →
      (reschedule now s).state = "disarmed" ∧
      (reschedule now s).next_fire = none ∧
      (reschedule now s).unsubscribe = none) ∧
    (s.config.enabled = true →
      (reschedule now s).state = "armed" ∧
      (reschedule now s).unsubscribe = some (nextFireAt now (todUs s.config)) ∧
      (reschedule now s).next_fire = some (nextFireAt now (todUs s.config))) ∧
    (∀ hdl : Option ℕ,
      reschedule now { s with unsubscribe := hdl } = reschedule now s) := by
  refine ⟨fun hen => ?_, fun hen => ?_, fun hdl => ?_⟩
  · simp [reschedule, hen]
  · simp [reschedule, hen]
  · simp [reschedule]

/-- A disabled variant of the example state. -/
def exampleStateOff : AlarmState :=
  { exampleState with config := { exampleState.config with enabled := false } }

theorem reschedule_invariant_witness :
    ((reschedule 5 exampleStateOff).state = "disarmed" ∧
      (reschedule 5 exampleStateOff).next_fire = none ∧
      (reschedule 5 exampleStateOff).unsubscribe = none) ∧
    ((reschedule 5 exampleState).state = "armed" ∧
      (reschedule 5 exampleState).unsubscribe
        = some (nextFireAt 5 (todUs exampleState.config)) ∧
      (reschedule 5 exampleState).next_fire
        = some (nextFireAt 5 (todUs exampleState.config))) :=
  ⟨(reschedule_invariant 5 exampleStateOff).1 rfl,
   (reschedule_invariant 5 exampleState).2.1 rfl⟩

/-- Python truthiness of `self._person_entity` (a `str | None`): `None`
and the empty string are falsy. -/
def strTruthy : Option String → Bool
  | none => false
  | some s => !(s == "")

/-- Observable effects of one `_run_alarm` execution: the sequence of
states published via `async_write_ha_state`, whether each fade
coroutine was launched by `asyncio.gather`, whether `_reschedule` was
called, and the error caught by the `except Exception` around the
gather, if any. -/
structure RunLog where
  published : List String
  light_invoked : Bool
  music_invoked : Bool
  reschedule_called : Bool
  caught_error : Option String

/-- The presence gate of `_run_alarm` (alarm.py lines 328-335): the run
is skipped iff `not ignore_presence and self._require_home and
self._person_entity` holds and then the person state is missing or not
"home". `presence` is `hass.states.get(person_entity)`: `none` when no
state object exists, otherwise the state string. -/
def presenceSkips (ignore_presence require_home : Bool)
    (person_entity presence : Option String) : Bool :=
  (!ignore_presence && require_home && strTruthy person_entity) &&
    (match presence with
     | none => true
     | some st => !(st == "home"))

/-- `WakeupAlarmEntity._run_alarm` (alarm.py lines 306-365). The fade
bodies are abstracted by their outcomes `fadeLight`/`fadeMusic`
(`Except.error e` = the coroutine raised `e`); the `try/except` around
`asyncio.gather` catches the first error, and the `finally` always
clears `running`. -/
def run_alarm (now : ℕ) (ignore_presence : Bool) (presence : Option String)
    (fadeLight fadeMusic : Except String Unit) (s : AlarmState) :
    AlarmState × RunLog :=
  if s.running then
    (s, { published := [], light_invoked := false, music_invoked := false,
          reschedule_called := false, caught_error := none })
  else
    let s1 : AlarmState := { s with running := true }
    if presenceSkips ignore_presence s1.require_home s1.person_entity presence then
      let s2 : AlarmState := { s1 with state := "skipped" }
      let s3 := reschedule now s2
      ({ s3 with running := false },
       { published := ["skipped"], light_invoked := false, music_invoked := false,
         reschedule_called := true, caught_error := none })
    else
      let s2 : AlarmState := { s1 with state := "triggered" }
      let err : Option String :=
        match fadeLight with
        | .error e => some e
        | .ok _ =>
          match fadeMusic with
          | .error e => some e
          | .ok _ => none
      let s3 := reschedule now s2
      ({ s3 with running := false },
       { published := ["triggered", s3.state], light_invoked := true,
         music_invoked := true, reschedule_called := true, caught_error := err })

/-- Unfolding of the presence gate condition into the claim's wording. -/
theorem presenceSkips_iff (ip rh : Bool) (pe pr : Option String) :
    presenceSkips ip rh pe pr = true ↔
      ip = false ∧ rh = true ∧ strTruthy pe = true ∧ pr ≠ some "home" := by
  cases pr with
  | none =>
    simp [presenceSkips]
    tauto
  | some st =>
    simp [presenceSkips]
    tauto

/-- Claim C3: a run of `_run_alarm` is skipped (state "skipped"
published, neither fade invoked, reschedule still called) exactly when
ignore_presence is false, require_home is true, a subject reference is
set, and the queried presence is absent or not "home"; in every other
case — in particular whenever ignore_presence=true, the manual trigger
path — the state becomes "triggered" and both fade sequencers are
invoked. -/
theorem run_alarm_presence_gate (now : ℕ) (ip : Bool) (pr : Option String)
    (fl fm : Except String Unit) (s : AlarmState) (h : s.running = false) :
    (presenceSkips ip s.require_home s.person_entity pr = true →
      (run_alarm now ip pr fl fm s).2.published = ["skipped"] ∧
      (run_alarm now ip pr fl fm s).2.light_invoked = false ∧
      (run_alarm now ip pr fl fm s).2.music_invoked = false ∧
      (run_alarm now ip pr fl fm s).2.reschedule_called = true) ∧
    (presenceSkips ip s.require_home s.person_entity pr = false →
      (run_alarm now ip pr fl fm s).2.published.head? = some "triggered" ∧
      (run_alarm now ip pr fl fm s).2.light_invoked = true ∧
      (run_alarm now ip pr fl fm s).2.music_invoked = true ∧
      (run_alarm now ip pr fl fm s).2.reschedule_called = true) ∧
    (ip = true → presenceSkips ip s.require_home s.person_entity pr = false) := by
  refine ⟨fun hskip => ?_, fun hskip => ?_, fun hip => ?_⟩
  · simp [run_alarm, h, hskip]
  · simp [run_alarm, h, hskip]
  · simp [presenceSkips, hip]

/-- A state whose presence gate is active: require_home with a person
entity configured. -/
def examplePresenceState : AlarmState :=
  { exampleState with require_home := true, person_entity := some "person.matilde" }

theorem run_alarm_presence_gate_witness :
    (presenceSkips false examplePresenceState.require_home
        examplePresenceState.person_entity (some "away") = true →
      (run_alarm 0 false (some "away") (.ok ()) (.ok ())
          examplePresenceState).2.published = ["skipped"] ∧
      (run_alarm 0 false (some "away") (.ok ()) (.ok ())
          examplePresenceState).2.light_invoked = false ∧
      (run_alarm 0 false (some "away") (.ok ()) (.ok ())
          examplePresenceState).2.music_invoked = false ∧
      (run_alarm 0 false (some "away") (.ok ()) (.ok ())
          examplePresenceState).2.reschedule_called = true) ∧
    (presenceSkips false examplePresenceState.require_home
        examplePresenceState.person_entity (some "away") = false →
      (run_alarm 0 false (some "away") (.ok ()) (.ok ())
          examplePresenceState).2.published.head? = some "triggered" ∧
      (run_alarm 0 false (some "away") (.ok ()) (.ok ())
          examplePresenceState).2.light_invoked = true ∧
      (run_alarm 0 false (some "away") (.ok ()) (.ok ())
          examplePresenceState).2.music_invoked = true ∧
      (run_alarm 0 false (some "away") (.ok ()) (.ok ())
          examplePresenceState).2.reschedule_called = true) ∧
    (false = true → presenceSkips false examplePresenceState.require_home
        examplePresenceState.person_entity (some "away") = false) :=
  run_alarm_presence_gate 0 false (some "away") (.ok ()) (.ok ())
    examplePresenceState rfl

/-- Claim C7: for every run of `_run_alarm`, whatever the outcomes of
the two fade coroutines (including either raising), reschedule is
called, reaching the fade phase launches both sequencers regardless of
the other's failure, a raised fade error is caught rather than
propagated, and with enabled=true the final state is re-armed with an
active scheduled fire; the running flag is clear afterwards. -/
theorem run_alarm_always_reschedules (now : ℕ) (ip : Bool) (pr : Option String)
    (fl fm : Except String Unit) (s : AlarmState) (h : s.running = false) :
    (run_alarm now ip pr fl fm s).2.reschedule_called = true ∧
    (presenceSkips ip s.require_home s.person_entity pr = false →
      (run_alarm now ip pr fl fm s).2.light_invoked = true ∧
      (run_alarm now ip pr fl fm s).2.music_invoked = true) ∧
    (s.config.enabled = true →
      (run_alarm now ip pr fl fm s).1.state = "armed" ∧
      (run_alarm now ip pr fl fm s).1.unsubscribe.isSome = true) ∧
    (run_alarm now ip pr fl fm s).1.running = false := by
  by_cases hskip : presenceSkips ip s.require_home s.person_entity pr = true
  · refine ⟨by simp [run_alarm, h, hskip], fun hc => by simp [hskip] at hc,
      fun hen => ?_, by simp [run_alarm, h, hskip, reschedule]⟩
    simp [run_alarm, h, hskip, reschedule, hen]
  · rw [Bool.not_eq_true] at hskip
    refine ⟨by simp [run_alarm, h, hskip], fun _ => by simp [run_alarm, h, hskip],
      fun hen => ?_, by simp [run_alarm, h, hskip, reschedule]⟩
    simp [run_alarm, h, hskip, reschedule, hen]

theorem run_alarm_always_reschedules_witness :
    (run_alarm 0 false none (.error "light failed") (.ok ())
        exampleState).2.reschedule_called = true ∧
    (presenceSkips false exampleState.require_home exampleState.person_entity
        none = false →
      (run_alarm 0 false none (.error "light failed") (.ok ())
          exampleState).2.light_invoked = true ∧
      (run_alarm 0 false none (.error "light failed") (.ok ())
          exampleState).2.music_invoked = true) ∧
    (exampleState.config.enabled = true →
      (run_alarm 0 false none (.error "light failed") (.ok ())
          exampleState).1.state = "armed" ∧
      (run_alarm 0 false none (.error "light failed") (.ok ())
          exampleState).1.unsubscribe.isSome = true) ∧
    (run_alarm 0 false none (.error "light failed") (.ok ())
        exampleState).1.running = false :=
  run_alarm_always_reschedules 0 false none (.error "light failed") (.ok ())
    exampleState rfl

/-- `duration = max(1, int(self._config.fade_duration))`
(alarm.py line 377). -/
def fade_light_duration (fade_duration : ℤ) : ℕ := (max 1 fade_duration).toNat

/-- `steps = max(1, duration // step_seconds)` with `step_seconds = 5`
(alarm.py lines 378-379). -/
def fade_light_steps (fade_duration : ℤ) : ℕ :=
  max 1 (fade_light_duration fade_duration / 5)

/-- `brightness = int(255 * step / steps)` (alarm.py line 398): `int()`
of a non-negative float quotient truncates, i.e. floor division. -/
def fade_light_brightness (fade_duration : ℤ) (i : ℕ) : ℕ :=
  255 * i / fade_light_steps fade_duration

/-- The brightness values commanded by the `for step in
range(1, steps + 1)` loop of `_fade_light` on an uncancelled run
(alarm.py lines 388-415). -/
def fade_light_commands (fade_duration : ℤ) : List ℕ :=
  (List.range (fade_light_steps fade_duration)).map
    (fun k => fade_light_brightness fade_duration (k + 1))

/-- Claim C5 counterexample: the code truncates (`int(...)`) rather
than rounds — at fade_duration=10 there are 2 steps and step 1 commands
brightness 127 while round(255·1/2) = 128; and the sequence is not
strictly increasing for every positive fade_duration — at
fade_duration=2550 there are 510 steps and steps 2 and 3 both command
brightness 1. -/
theorem fade_light_round_counterexample :
    fade_light_steps 10 = 2 ∧
    fade_light_brightness 10 1 = 127 ∧
    round ((255 : ℚ) * 1 / (fade_light_steps 10 : ℚ)) = 128 ∧
    ((fade_light_brightness 10 1 : ℤ) ≠
      round ((255 : ℚ) * 1 / (fade_light_steps 10 : ℚ))) ∧
    fade_light_steps 2550 = 510 ∧
    fade_light_brightness 2550 2 = 1 ∧
    fade_light_brightness 2550 3 = 1 := by
  have hs : fade_light_steps 10 = 2 := by decide
  have hr : round ((255 : ℚ) * 1 / (fade_light_steps 10 : ℚ)) = 128 := by
    rw [hs]
    norm_num [round_eq]
  exact ⟨hs, by decide, hr, by rw [hr]; decide, by decide, by decide, by decide⟩

/-- Claim C5 (amended): for every positive fade_duration the step count
is max(1, max(1, fade_duration) // 5) and step i commands brightness
⌊255·i/steps⌋ (truncation, not rounding); the sequence is
nondecreasing, strictly increasing whenever the step count is at most
255, and on uncancelled completion the final commanded brightness is
255. -/
theorem fade_light_amended (d : ℤ) (hd : 0 < d) :
    fade_light_steps d = max 1 ((max 1 d).toNat / 5) ∧
    (∀ i : ℕ, 1 ≤ i → i ≤ fade_light_steps d →
      (fade_light_commands d)[i - 1]? = some (255 * i / fade_light_steps d)) ∧
    fade_light_brightness d (fade_light_steps d) = 255 ∧
    (fade_light_commands d)[fade_light_steps d - 1]? = some 255 ∧
    (∀ i j : ℕ, i ≤ j →
      fade_light_brightness d i ≤ fade_light_brightness d j) ∧
    (fade_light_steps d ≤ 255 → ∀ i j : ℕ, i < j →
      fade_light_brightness d i < fade_light_brightness d j) := by
  have hspos : 0 < fade_light_steps d := by
    simp [fade_light_steps]
  have hget : ∀ i : ℕ, 1 ≤ i → i ≤ fade_light_steps d →
      (fade_light_commands d)[i - 1]? = some (255 * i / fade_light_steps d) := by
    intro i h1 h2
    have hlt : i - 1 < fade_light_steps d := by omega
    simp [fade_light_commands, hlt, fade_light_brightness]
    congr 1
    omega
  have hfull : fade_light_brightness d (fade_light_steps d) = 255 := by
    simp only [fade_light_brightness]
    exact Nat.mul_div_cancel 255 hspos
  have hmono : ∀ i j : ℕ, i ≤ j →
      fade_light_brightness d i ≤ fade_light_brightness d j := by
    intro i j hij
    exact Nat.div_le_div_right (Nat.mul_le_mul_left 255 hij)
  refine ⟨rfl, hget, hfull, ?_, hmono, ?_⟩
  · have hg := hget (fade_light_steps d) hspos le_rfl
    rw [hg]
    exact congrArg some (Nat.mul_div_cancel 255 hspos)
  · intro hle i j hij
    have hstep : fade_light_brightness d i < fade_light_brightness d (i + 1) := by
      have h1 : 255 * i + fade_light_steps d ≤ 255 * (i + 1) := by
        have : 255 * (i + 1) = 255 * i + 255 := by ring
        omega
      have h2 : (255 * i + fade_light_steps d) / fade_light_steps d ≤
          255 * (i + 1) / fade_light_steps d := Nat.div_le_div_right h1
      have h3 : (255 * i + fade_light_steps d) / fade_light_steps d =
          255 * i / fade_light_steps d + 1 := Nat.add_div_right _ hspos
      simp only [fade_light_brightness]
      omega
    calc fade_light_brightness d i < fade_light_brightness d (i + 1) := hstep
      _ ≤ fade_light_brightness d j := hmono (i + 1) j hij

theorem fade_light_amended_witness :
    (0 : ℤ) < 25 ∧
    (fade_light_steps 25 = max 1 ((max 1 (25 : ℤ)).toNat / 5) ∧
    (∀ i : ℕ, 1 ≤ i → i ≤ fade_light_steps 25 →
      (fade_light_commands 25)[i - 1]? = some (255 * i / fade_light_steps 25)) ∧
    fade_light_brightness 25 (fade_light_steps 25) = 255 ∧
    (fade_light_commands 25)[fade_light_steps 25 - 1]? = some 255 ∧
    (∀ i j : ℕ, i ≤ j →
      fade_light_brightness 25 i ≤ fade_light_brightness 25 j) ∧
    (fade_light_steps 25 ≤ 255 → ∀ i j : ℕ, i < j →
      fade_light_brightness 25 i < fade_light_brightness 25 j)) :=
  ⟨by decide, fade_light_amended 25 (by decide)⟩

/-- `light_duration = max(1, int(self._config.fade_duration))`
(alarm.py line 449). -/
def light_duration (c : WakeupConfig) : ℕ := (max 1 c.fade_duration).toNat

/-- `music_duration = int(self._config.fade_music_duration or 0)` with
the `<= 0` fallback to the light duration (alarm.py lines 452-455). -/
def music_duration (c : WakeupConfig) : ℕ :=
  if c.fade_music_duration ≤ 0 then light_duration c
  else c.fade_music_duration.toNat

/-- `initial_delay = max(0.0, light_duration - music_duration / 2.0)`
(alarm.py line 461), exact over `ℚ`. -/
def initial_delay (c : WakeupConfig) : ℚ :=
  max 0 ((light_duration c : ℚ) - (music_duration c : ℚ) / 2)

/-- `steps = max(1, music_duration // step_seconds)` with
`step_seconds = 5` (alarm.py lines 464-465). -/
def music_steps (c : WakeupConfig) : ℕ := max 1 (music_duration c / 5)

/-- `target_volume = max(0.0, min(float(self._config.volume or 0.0),
1.0))` (alarm.py lines 467-468). -/
def target_volume (c : WakeupConfig) : ℚ := max 0 (min c.volume 1)

/-- `volume = target_volume * (step / steps)` (alarm.py line 546). -/
def fade_music_volume (c : WakeupConfig) (i : ℕ) : ℚ :=
  target_volume c * (i / music_steps c)

/-- The volume levels commanded by `_fade_music` on an uncancelled run:
the initial `volume_set` to 0.0 (alarm.py line 524) followed by the
ramp loop's levels (alarm.py lines 536-561). -/
def fade_music_commands (c : WakeupConfig) : List ℚ :=
  0 :: (List.range (music_steps c)).map (fun k => fade_music_volume c (k + 1))

theorem music_steps_pos (c : WakeupConfig) : 0 < music_steps c := by
  simp [music_steps]

/-- Claim C6: in the music fade, with light_duration = max(1,
fade_duration) and music_duration = fade_music_duration when positive
else light_duration, the initial delay before the ramp is
max(0, light_duration − music_duration/2), the step count is
max(1, music_duration // 5), the volume commanded at step i is
target_volume·i/steps, and on normal completion the last commanded
volume equals target_volume. -/
theorem fade_music_plan (c : WakeupConfig) :
    (0 < c.fade_music_duration → music_duration c = c.fade_music_duration.toNat) ∧
    (c.fade_music_duration ≤ 0 → music_duration c = light_duration c) ∧
    initial_delay c = max 0 ((light_duration c : ℚ) - (music_duration c : ℚ) / 2) ∧
    music_steps c = max 1 (music_duration c / 5) ∧
    (∀ i : ℕ, fade_music_volume c i = target_volume c * i / music_steps c) ∧
    fade_music_volume c (music_steps c) = target_volume c ∧
    (fade_music_commands c)[music_steps c]? = some (target_volume c) := by
  have hspos : 0 < music_steps c := music_steps_pos c
  have hcast : (music_steps c : ℚ) ≠ 0 := by
    exact_mod_cast Nat.pos_iff_ne_zero.mp hspos
  have hlast : fade_music_volume c (music_steps c) = target_volume c := by
    simp only [fade_music_volume]
    rw [div_self hcast, mul_one]
  refine ⟨fun hpos => ?_, fun hneg => ?_, rfl, rfl, fun i => by
    simp only [fade_music_volume]; ring, hlast, ?_⟩
  · simp [music_duration, not_le.mpr hpos, Int.not_lt.mpr hpos]
  · simp [music_duration, hneg]
  · have hidx : music_steps c - 1 < music_steps c := by omega
    have : (fade_music_commands c)[music_steps c]? =
        some (fade_music_volume c (music_steps c - 1 + 1)) := by
      simp only [fade_music_commands]
      rw [show music_steps c = (music_steps c - 1) + 1 by omega]
      simp [hidx]
    rw [this]
    rw [show music_steps c - 1 + 1 = music_steps c by omega, hlast]

/-- The spec's worked example for music-fade centering:
fade_duration=60, fade_music_duration=20. -/
def exampleMusicConfig : WakeupConfig :=
  { time_of_day := (7, 0), enabled := true, fade_duration := 60,
    volume := 3/2, playlist := "pl", fade_music_duration := 20 }

theorem fade_music_plan_witness :
    ((0 : ℤ) < exampleMusicConfig.fade_music_duration →
      music_duration exampleMusicConfig
        = exampleMusicConfig.fade_music_duration.toNat) ∧
    (exampleMusicConfig.fade_music_duration ≤ 0 →
      music_duration exampleMusicConfig = light_duration exampleMusicConfig) ∧
    initial_delay exampleMusicConfig
      = max 0 ((light_duration exampleMusicConfig : ℚ)
          - (music_duration exampleMusicConfig : ℚ) / 2) ∧
    music_steps exampleMusicConfig
      = max 1 (music_duration exampleMusicConfig / 5) ∧
    (∀ i : ℕ, fade_music_volume exampleMusicConfig i
      = target_volume exampleMusicConfig * i / music_steps exampleMusicConfig) ∧
    fade_music_volume exampleMusicConfig (music_steps exampleMusicConfig)
      = target_volume exampleMusicConfig ∧
    (fade_music_commands exampleMusicConfig)[music_steps exampleMusicConfig]?
      = some (target_volume exampleMusicConfig) :=
  fade_music_plan exampleMusicConfig

/-- Claim C9: the target volume is clamped into [0,1] before any ramp
step is computed, and every volume level commanded by the music fade —
the initial 0.0 and every ramp step — lies in [0,1], for every
configured volume value including ones outside [0,1]. -/
theorem fade_music_volume_clamped (c : WakeupConfig) (v : ℚ)
    (hv : v ∈ fade_music_commands c) :
    (0 ≤ target_volume c ∧ target_volume c ≤ 1) ∧ 0 ≤ v ∧ v ≤ 1 := by
  have htv : 0 ≤ target_volume c ∧ target_volume c ≤ 1 := by
    constructor
    · exact le_max_left 0 _
    · exact max_le (by norm_num) (min_le_right c.volume 1)
  refine ⟨htv, ?_⟩
  simp only [fade_music_commands, List.mem_cons, List.mem_map,
    List.mem_range] at hv
  rcases hv with h0 | ⟨k, hk, hvk⟩
  · subst h0
    norm_num
  · subst hvk
    have hspos : (0 : ℚ) < (music_steps c : ℚ) := by
      exact_mod_cast music_steps_pos c
    have hfrac0 : (0 : ℚ) ≤ (k + 1 : ℕ) / (music_steps c : ℚ) :=
      div_nonneg (by positivity) (le_of_lt hspos)
    have hfrac1 : ((k + 1 : ℕ) : ℚ) / (music_steps c : ℚ) ≤ 1 := by
      rw [div_le_one hspos]
      exact_mod_cast Nat.succ_le_of_lt hk
    constructor
    · exact mul_nonneg htv.1 hfrac0
    · calc target_volume c * ((k + 1 : ℕ) / (music_steps c : ℚ))
          ≤ 1 * 1 := mul_le_mul htv.2 hfrac1 hfrac0 (by norm_num)
        _ = 1 := by norm_num

theorem fade_music_volume_clamped_witness :
    fade_music_volume exampleMusicConfig 4
        ∈ fade_music_commands exampleMusicConfig ∧
    ((0 ≤ target_volume exampleMusicConfig
        ∧ target_volume exampleMusicConfig ≤ 1) ∧
      0 ≤ fade_music_volume exampleMusicConfig 4
        ∧ fade_music_volume exampleMusicConfig 4 ≤ 1) :=
  ⟨by simp [fade_music_commands]; exact Or.inr ⟨3, by decide, rfl⟩,
   fade_music_volume_clamped exampleMusicConfig
     (fade_music_volume exampleMusicConfig 4)
     (by simp [fade_music_commands]; exact Or.inr ⟨3, by decide, rfl⟩)⟩

/-- A configuration-update mapping as `async_set_config` receives it
(alarm.py lines 162-229), after the Python coercions: an outer `none`
means the key is absent; for `time_of_day` the raw value is the
`str(v).split(":")` parts with each `int(part)` result (`none` = the
int() raised); for `fade_duration`/`volume` the inner `none` means the
`int(...)`/`float(...)` coercion raised. `enabled`, `require_home`
(`bool(v)`) and `playlist` (`str(v)`) cannot fail. -/
structure ConfigPatch where
  enabled : Option Bool
  time_of_day : Option (List (Option ℤ))
  fade_duration : Option (Option ℤ)
  volume : Option (Option ℚ)
  playlist : Option String
  require_home : Option Bool

/-- `hh, mm = map(int, str(...).split(":"))` then
`time(hour=hh, minute=mm)` (alarm.py lines 177-178): unpacking needs
exactly two parts, both `int()` calls must succeed, and `time()`
validates 0 ≤ hour ≤ 23 and 0 ≤ minute ≤ 59; any failure raises and is
caught by the surrounding `except`. -/
def parse_time_of_day : List (Option ℤ) → Option (ℕ × ℕ)
  | [some h, some m] =>
    if 0 ≤ h ∧ h ≤ 23 ∧ 0 ≤ m ∧ m ≤ 59 then some (h.toNat, m.toNat) else none
  | _ => none

/-- The `"enabled" in data` / `"require_home" in data` update. -/
def upd_bool (old : Bool) : Option Bool → Bool
  | some b => b
  | none => old

/-- The `"time_of_day" in data` update: on parse failure the field is
left unchanged (alarm.py lines 175-185). -/
def upd_tod (old : ℕ × ℕ) : Option (List (Option ℤ)) → ℕ × ℕ
  | some raw =>
    match parse_time_of_day raw with
    | some t => t
    | none => old
  | none => old

/-- The `"fade_duration" in data` update: a raised `int(...)` leaves
the field unchanged (alarm.py lines 187-196). -/
def upd_int (old : ℤ) : Option (Option ℤ) → ℤ
  | some (some n) => n
  | some none => old
  | none => old

/-- The `"volume" in data` update: a raised `float(...)` leaves the
field unchanged (alarm.py lines 198-207). -/
def upd_rat (old : ℚ) : Option (Option ℚ) → ℚ
  | some (some q) => q
  | some none => old
  | none => old

/-- The `"playlist" in data` update (alarm.py lines 209-210). -/
def upd_str (old : String) : Option String → String
  | some v => v
  | none => old

/-- `WakeupAlarmEntity.async_set_config` (alarm.py lines 162-229): each
recognized key is applied independently (the source updates the fields
one `if "key" in data` block at a time; the blocks touch disjoint
fields, so the simultaneous record update below is the same function),
then `_reschedule` runs and the state is republished. The returned
Bool records that the scheduler was re-run. -/
def async_set_config (now : ℕ) (p : ConfigPatch) (s : AlarmState) :
    AlarmState × Bool :=
  let c := s.config
  let cNew : WakeupConfig :=
    { time_of_day := upd_tod c.time_of_day p.time_of_day
      enabled := upd_bool c.enabled p.enabled
      fade_duration := upd_int c.fade_duration p.fade_duration
      volume := upd_rat c.volume p.volume
      playlist := upd_str c.playlist p.playlist
      fade_music_duration := c.fade_music_duration }
  (reschedule now
    { s with config := cNew, require_home := upd_bool s.require_home p.require_home },
   true)

theorem reschedule_preserves_config (now : ℕ) (s : AlarmState) :
    (reschedule now s).config = s.config := by
  simp only [reschedule]
  split <;> rfl

/-- Claim C8: in `async_set_config`, a key absent from the mapping
leaves the corresponding field unchanged; an invalid `time_of_day`,
`fade_duration` or `volume` value leaves only that field unchanged
while every other recognized field in the same call is still applied;
and afterwards the scheduler is re-run. -/
theorem async_set_config_fieldwise (now : ℕ) (p : ConfigPatch) (s : AlarmState) :
    (p.enabled = none →
      (async_set_config now p s).1.config.enabled = s.config.enabled) ∧
    (p.time_of_day = none →
      (async_set_config now p s).1.config.time_of_day = s.config.time_of_day) ∧
    (p.fade_duration = none →
      (async_set_config now p s).1.config.fade_duration = s.config.fade_duration) ∧
    (p.volume = none →
      (async_set_config now p s).1.config.volume = s.config.volume) ∧
    (p.playlist = none →
      (async_set_config now p s).1.config.playlist = s.config.playlist) ∧
    (p.require_home = none →
      (async_set_config now p s).1.require_home = s.require_home) ∧
    (∀ raw, p.time_of_day = some raw → parse_time_of_day raw = none →
      (async_set_config now p s).1.config.time_of_day = s.config.time_of_day) ∧
    (p.fade_duration = some none →
      (async_set_config now p s).1.config.fade_duration = s.config.fade_duration) ∧
    (p.volume = some none →
      (async_set_config now p s).1.config.volume = s.config.volume) ∧
    (∀ b, p.enabled = some b →
      (async_set_config now p s).1.config.enabled = b) ∧
    (∀ raw t, p.time_of_day = some raw → parse_time_of_day raw = some t →
      (async_set_config now p s).1.config.time_of_day = t) ∧
    (∀ n, p.fade_duration = some (some n) →
      (async_set_config now p s).1.config.fade_duration = n) ∧
    (∀ q, p.volume = some (some q) →
      (async_set_config now p s).1.config.volume = q) ∧
    (∀ pl, p.playlist = some pl →
      (async_set_config now p s).1.config.playlist = pl) ∧
    (∀ b, p.require_home = some b →
      (async_set_config now p s).1.require_home = b) ∧
    (async_set_config now p s).2 = true ∧
    ((async_set_config now p s).1.config.enabled = true →
      (async_set_config now p s).1.state = "armed" ∧
      (async_set_config now p s).1.unsubscribe.isSome = true) ∧
    ((async_set_config now p s).1.config.enabled = false →
      (async_set_config now p s).1.state = "disarmed" ∧
      (async_set_config now p s).1.next_fire = none) := by
  simp only [async_set_config, reschedule_preserves_config]
  refine ⟨fun h => by simp [upd_bool, h], fun h => by simp [upd_tod, h],
    fun h => by simp [upd_int, h], fun h => by simp [upd_rat, h],
    fun h => by simp [upd_str, h], ?_,
    fun raw hr hp => by simp [upd_tod, hr, hp], fun h => by simp [upd_int, h],
    fun h => by simp [upd_rat, h], fun b h => by simp [upd_bool, h],
    fun raw t hr hp => by simp [upd_tod, hr, hp],
    fun n h => by simp [upd_int, h], fun q h => by simp [upd_rat, h],
    fun pl h => by simp [upd_str, h], ?_, trivial, ?_, ?_⟩
  · intro h
    simp only [reschedule]
    split <;> simp [upd_bool, h]
  · intro b h
    simp only [reschedule]
    split <;> simp [upd_bool, h]
  · intro hen
    simp [reschedule, hen]
  · intro hen
    simp [reschedule, hen]

/-- A patch with an unparseable time_of_day (hour 99), a failed
`float(...)` for volume, and valid values for the other keys. -/
def examplePatch : ConfigPatch :=
  { enabled := some false
    time_of_day := some [some 99, some 0]
    fade_duration := some (some 600)
    volume := some none
    playlist := some "x"
    require_home := some true }

theorem async_set_config_fieldwise_witness :
    (async_set_config 0 examplePatch exampleState).1.config.time_of_day
        = exampleState.config.time_of_day ∧
    (async_set_config 0 examplePatch exampleState).1.config.volume
        = exampleState.config.volume ∧
    (async_set_config 0 examplePatch exampleState).1.config.fade_duration = 600 ∧
    (async_set_config 0 examplePatch exampleState).1.config.enabled = false ∧
    (async_set_config 0 examplePatch exampleState).2 = true :=
  ⟨(async_set_config_fieldwise 0 examplePatch
      exampleState).2.2.2.2.2.2.1 [some 99, some 0] rfl (by decide),
   (async_set_config_fieldwise 0 examplePatch
      exampleState).2.2.2.2.2.2.2.2.1 rfl,
   (async_set_config_fieldwise 0 examplePatch
      exampleState).2.2.2.2.2.2.2.2.2.2.2.1 600 rfl,
   (async_set_config_fieldwise 0 examplePatch
      exampleState).2.2.2.2.2.2.2.2.2.1 false rfl,
   (async_set_config_fieldwise 0 examplePatch
      exampleState).2.2.2.2.2.2.2.2.2.2.2.2.2.2.2.1⟩

/-- The entity state as `WakeupAlarmEntity.__init__` builds it
(alarm.py lines 104-123): time 07:00, enabled, fade_duration 900,
volume 0.25, the first configured playlist, and the `WakeupConfig`
default `fade_music_duration = 300`. -/
def initState (playlist0 : String) (pe : Option String) (rh : Bool) : AlarmState :=
  { config := { time_of_day := (7, 0), enabled := true, fade_duration := 900,
                volume := 1/4, playlist := playlist0 }
    require_home := rh
    person_entity := pe
    next_fire := none
    state := "disarmed"
    unsubscribe := none
    running := false
    cancel_requested := false }

/-- A sequence of configuration-update commands applied in order. -/
def apply_updates (now : ℕ) (ps : List ConfigPatch) (s : AlarmState) : AlarmState :=
  ps.foldl (fun t p => (async_set_config now p t).1) s

theorem async_set_config_keeps_music_duration (now : ℕ) (p : ConfigPatch)
    (s : AlarmState) :
    (async_set_config now p s).1.config.fade_music_duration
      = s.config.fade_music_duration := by
  simp [async_set_config, reschedule_preserves_config]

/-- Claim C10: `fade_music_duration` is initialized to 300 at
construction and no configuration-update key modifies it, so after any
sequence of `async_set_config` calls it is still 300; hence the
fallback in `_fade_music` that substitutes the light duration when
`fade_music_duration` is non-positive is never taken. -/
theorem fade_music_duration_frame (playlist0 : String) (pe : Option String)
    (rh : Bool) (now : ℕ) (ps : List ConfigPatch) :
    (apply_updates now ps (initState playlist0 pe rh)).config.fade_music_duration
        = 300 ∧
    ¬ (apply_updates now ps (initState playlist0 pe rh)).config.fade_music_duration
        ≤ 0 ∧
    music_duration (apply_updates now ps (initState playlist0 pe rh)).config
      = (apply_updates now ps
          (initState playlist0 pe rh)).config.fade_music_duration.toNat := by
  have key : ∀ (l : List ConfigPatch) (t : AlarmState),
      (apply_updates now l t).config.fade_music_duration
        = t.config.fade_music_duration := by
    intro l
    induction l with
    | nil => intro t; rfl
    | cons p l ih =>
      intro t
      simp only [apply_updates, List.foldl_cons] at *
      rw [ih, async_set_config_keeps_music_duration]
  have h300 : (apply_updates now ps
      (initState playlist0 pe rh)).config.fade_music_duration = 300 :=
    key ps (initState playlist0 pe rh)
  refine ⟨h300, by rw [h300]; norm_num, ?_⟩
  rw [music_duration, if_neg (by rw [h300]; norm_num)]

/-- Program counter of one `_start_alarm` invocation (alarm.py lines
290-365) under asyncio's cooperative scheduling, where code between
awaits runs atomically:
`start` — about to run `_start_alarm`'s body;
`waiting` — suspended in `await asyncio.sleep(0.5)` inside the
`while self._running` loop (line 300);
`inBody` — `self._cancel_requested = False` and `_run_alarm`'s
check-and-set of `self._running = True` have executed (an awaited
coroutine runs eagerly to its first suspension, so lines 303-317 are
one atomic segment), now suspended inside the try block;
`done` — returned, the `finally` (line 365) has cleared `running`. -/
inductive TaskPC
  | start
  | waiting
  | inBody
  | done
deriving DecidableEq

/-- The shared `self._running` / `self._cancel_requested` flags plus
the in-flight `_start_alarm` invocations (timer callback and manual
triggers). -/
structure RunSystem where
  running : Bool
  cancel_requested : Bool
  tasks : List TaskPC

/-- How many invocations are currently inside `_run_alarm`'s body. -/
def inBodyCount : List TaskPC → ℕ
  | [] => 0
  | t :: ts => (if t = TaskPC.inBody then 1 else 0) + inBodyCount ts

/-- One atomic step of the system. `spawn`: a new trigger (timer
callback or `async_trigger`) enters `_start_alarm`. `start_busy`:
entry observes `running=true`, sets `cancel_requested=true` and
suspends in the polling loop (lines 292-300). `start_free`: entry
observes `running=false`, skips the loop, clears `cancel_requested`
and enters `_run_alarm`, which sets `running=true` (lines 302-317).
`wake_busy`/`wake_free`: the polling sleep returns and the loop
re-tests `running`. `body_return`/`body_raise`: `_run_alarm` finishes
normally or by an internal failure; either way the `finally` clears
`running` (lines 364-365). -/
inductive RunStep : RunSystem → RunSystem → Prop
  | spawn (c : RunSystem) :
      RunStep c ⟨c.running, c.cancel_requested, TaskPC.start :: c.tasks⟩
  | start_busy (c : RunSystem) (i : ℕ)
      (hi : c.tasks.get? i = some TaskPC.start) (hr : c.running = true) :
      RunStep c ⟨c.running, true, c.tasks.set i TaskPC.waiting⟩
  | start_free (c : RunSystem) (i : ℕ)
      (hi : c.tasks.get? i = some TaskPC.start) (hr : c.running = false) :
      RunStep c ⟨true, false, c.tasks.set i TaskPC.inBody⟩
  | wake_busy (c : RunSystem) (i : ℕ)
      (hi : c.tasks.get? i = some TaskPC.waiting) (hr : c.running = true) :
      RunStep c c
  | wake_free (c : RunSystem) (i : ℕ)
      (hi : c.tasks.get? i = some TaskPC.waiting) (hr : c.running = false) :
      RunStep c ⟨true, false, c.tasks.set i TaskPC.inBody⟩
  | body_return (c : RunSystem) (i : ℕ)
      (hi : c.tasks.get? i = some TaskPC.inBody) :
      RunStep c ⟨false, c.cancel_requested, c.tasks.set i TaskPC.done⟩
  | body_raise (c : RunSystem) (i : ℕ)
      (hi : c.tasks.get? i = some TaskPC.inBody) :
      RunStep c ⟨false, c.cancel_requested, c.tasks.set i TaskPC.done⟩

/-- The entity right after `__init__`: `running=False`,
`cancel_requested=False`, no invocation in flight. -/
def runInit : RunSystem := ⟨false, false, []⟩

/-- States the alarm entity can reach from construction. -/
def ReachableRun (c : RunSystem) : Prop := Relation.ReflTransGen RunStep runInit c

theorem inBodyCount_set (l : List TaskPC) (i : ℕ) (a b : TaskPC)
    (h : l.get? i = some a) :
    inBodyCount (l.set i b) + (if a = TaskPC.inBody then 1 else 0)
      = inBodyCount l + (if b = TaskPC.inBody then 1 else 0) := by
  induction l generalizing i with
  | nil => simp at h
  | cons t ts ih =>
    cases i with
    | zero =>
      simp only [List.get?] at h
      injection h with h
      subst h
      simp only [List.set, inBodyCount]
      omega
    | succ n =>
      simp only [List.get?] at h
      simp only [List.set, inBodyCount]
      have := ih n h
      omega

theorem le_inBodyCount_of_get (l : List TaskPC) (i : ℕ)
    (h : l.get? i = some TaskPC.inBody) : 1 ≤ inBodyCount l := by
  induction l generalizing i with
  | nil => simp at h
  | cons t ts ih =>
    cases i with
    | zero =>
      simp only [List.get?] at h
      injection h with h
      subst h
      simp [inBodyCount]
    | succ n =>
      simp only [List.get?] at h
      have := ih n h
      simp only [inBodyCount]
      omega

theorem mutex_preserved (c d : RunSystem) (h : RunStep c d)
    (hc : inBodyCount c.tasks ≤ 1 ∧
      (c.running = true ↔ inBodyCount c.tasks = 1)) :
    inBodyCount d.tasks ≤ 1 ∧
      (d.running = true ↔ inBodyCount d.tasks = 1) := by
  cases h with
  | spawn =>
    simpa [inBodyCount] using hc
  | start_busy i hi hr =>
    have hcnt := inBodyCount_set c.tasks i TaskPC.start TaskPC.waiting hi
    simp at hcnt
    simpa [hcnt] using hc
  | start_free i hi hr =>
    have hz : inBodyCount c.tasks = 0 := by
      rcases hc with ⟨h1, h2⟩
      rw [hr] at h2
      simp at h2
      omega
    have hcnt := inBodyCount_set c.tasks i TaskPC.start TaskPC.inBody hi
    simp at hcnt
    simp [hcnt, hz]
  | wake_busy i hi hr => exact hc
  | wake_free i hi hr =>
    have hz : inBodyCount c.tasks = 0 := by
      rcases hc with ⟨h1, h2⟩
      rw [hr] at h2
      simp at h2
      omega
    have hcnt := inBodyCount_set c.tasks i TaskPC.waiting TaskPC.inBody hi
    simp at hcnt
    simp [hcnt, hz]
  | body_return i hi =>
    have h1 := le_inBodyCount_of_get c.tasks i hi
    have hcnt := inBodyCount_set c.tasks i TaskPC.inBody TaskPC.done hi
    simp at hcnt
    have hc1 := hc.1
    constructor
    · show inBodyCount (c.tasks.set i TaskPC.done) ≤ 1
      omega
    · show (false = true) ↔ inBodyCount (c.tasks.set i TaskPC.done) = 1
      simp only [Bool.false_eq_true, false_iff]
      omega
  | body_raise i hi =>
    have h1 := le_inBodyCount_of_get c.tasks i hi
    have hcnt := inBodyCount_set c.tasks i TaskPC.inBody TaskPC.done hi
    simp at hcnt
    have hc1 := hc.1
    constructor
    · show inBodyCount (c.tasks.set i TaskPC.done) ≤ 1
      omega
    · show (false = true) ↔ inBodyCount (c.tasks.set i TaskPC.done) = 1
      simp only [Bool.false_eq_true, false_iff]
      omega

/-- Claim C2: under the `_start_alarm` protocol — a trigger that
observes `running=true` sets `cancel_requested=true` and polls until
`running` is false before clearing the flag and starting its run, and
`_run_alarm` sets `running=true` on entry and always clears it on exit
(also on an internal failure, via the `finally`) — every reachable
state of the entity has at most one run executing, and `running` is
true exactly when one is. -/
theorem start_alarm_mutex (c : RunSystem) (h : ReachableRun c) :
    inBodyCount c.tasks ≤ 1 ∧
      (c.running = true ↔ inBodyCount c.tasks = 1) := by
  induction h with
  | refl => simp [runInit, inBodyCount]
  | tail hab hbc ih => exact mutex_preserved _ _ hbc ih

theorem start_alarm_mutex_witness :
    inBodyCount (RunSystem.mk true false [TaskPC.inBody]).tasks ≤ 1 ∧
      ((RunSystem.mk true false [TaskPC.inBody]).running = true ↔
        inBodyCount (RunSystem.mk true false [TaskPC.inBody]).tasks = 1) :=
  start_alarm_mutex ⟨true, false, [TaskPC.inBody]⟩
    (Relation.ReflTransGen.tail
      (Relation.ReflTransGen.tail Relation.ReflTransGen.refl
        (RunStep.spawn runInit))
      (RunStep.start_free ⟨false, false, [TaskPC.start]⟩ 0 rfl rfl))

end PersonalWakeup
